import Mathlib

/-!
Verification of the aiohttp-rpc JSON-RPC client core.

Shallow embedding of:
  * `aiohttp_rpc/protocol/request.py` — `JsonRpcRequest` (with its
    `__post_init__` normalization) and `JsonRpcBatchRequest`;
  * `aiohttp_rpc/client/base.py` — the pure parts of
    `BaseJsonRpcClient`: `_collect_batch_result`, `_parse_method_description`,
    the `save_order` branch of `batch`, and the pre-transport checks of
    `direct_batch`.

Parts of the repository referenced by those files but not present in the
sources (`utils.py`, `errors.py`, `protocol/response.py`,
`constants.NOTHING`) are modelled from the specification; each such
definition carries a doc comment starting with `Modelled from the spec:`.
-/

/-- A JSON value, as carried in params / results.  Numbers are modelled as
integers (the claims never depend on fractional values). -/
inductive Json where
  | null
  | bool (b : Bool)
  | num (n : Int)
  | str (s : String)
  | arr (xs : List Json)
  | obj (fields : List (String × Json))

/-- `typedefs.JsonRpcIdType = Union[int, str]`: a JSON-RPC request id. -/
inductive RpcId where
  | int (n : Int)
  | str (s : String)
deriving DecidableEq

/-- Modelled from the spec: `errors.py` is not under `src/`.  §7 gives the
closed taxonomy: ParseError, InvalidRequest, MethodNotFound, InvalidParams,
InternalError, plus an open-ended application-error family carrying the raw
code. -/
inductive RpcError where
  | parseError (message : String)
  | invalidRequest (message : String)
  | methodNotFound (message : String)
  | invalidParams (message : String)
  | internalError (message : String)
  | applicationError (code : Int) (message : String)

/-- The value extracted from one response during correlation:
`response.result` when `response.error is None`, else `response.error`. -/
inductive ResponseValue where
  | result (v : Json)
  | error (e : RpcError)

/-- An entry of the `responses_map` dict built by `_collect_batch_result`:
either a plain value, or (Modelled from the spec: `protocol.DuplicatedResults`
is not under `src/`) an ordered duplicate-collection of all values the server
returned under one id. -/
inductive MapValue where
  | single (v : ResponseValue)
  | duplicated (vs : List ResponseValue)

/-- A slot of the list `_collect_batch_result` returns: Python `None`, a plain
value, a `DuplicatedResults` collection, or (Modelled from the spec:
`protocol.UnlinkedResults` is not under `src/`) the ordered collection of
null-id responses used as fallback. -/
inductive SlotValue where
  | noneValue
  | single (v : ResponseValue)
  | duplicated (vs : List ResponseValue)
  | unlinked (vs : List ResponseValue)

/-- The three-state `params` field: `constants.NOTHING` (field absent; Modelled
from the spec: `constants.py` is not under `src/`, §9 "NOTHING vs null") or a
present JSON value (which may be `null`). -/
inductive ParamsField where
  | nothing
  | value (v : Json)

/-- `protocol/request.py` — the `JsonRpcRequest` dataclass after
`__post_init__` has run.  `extra_args` and `context` (opaque transport
metadata dicts, unused by every operation modelled here) are omitted. -/
structure JsonRpcRequest where
  method_name : String
  id : Option RpcId
  jsonrpc : String
  params : ParamsField
  args : Option (List Json)
  kwargs : Option (List (String × Json))

/-- `JsonRpcRequest.is_notification`: `self.id is None`. -/
def JsonRpcRequest.is_notification (r : JsonRpcRequest) : Bool :=
  r.id.isNone

/-- `protocol/request.py` — `JsonRpcBatchRequest`: a dataclass holding the
ordered request sequence.  It defines no `__post_init__`, so construction
performs no validation. -/
structure JsonRpcBatchRequest where
  requests : List JsonRpcRequest

/-- `JsonRpcBatchRequest.is_notification`: `all(request.is_notification for
request in self.requests)`. -/
def JsonRpcBatchRequest.is_notification (b : JsonRpcBatchRequest) : Bool :=
  b.requests.all (fun request => request.is_notification)

/-- Modelled from the spec: `protocol/response.py` is not under `src/`.  §3
Response: `id` (null/absent marks an unlinked response), `result`, and an
optional `error`, with `result`/`error` mutually exclusive.  `context` is
omitted as opaque transport metadata. -/
structure JsonRpcResponse where
  id : Option RpcId
  result : Json
  error : Option RpcError

/-- Modelled from the spec: `protocol/response.py` is not under `src/`.  §3
BatchResponse: an ordered sequence of responses. -/
structure JsonRpcBatchResponse where
  responses : List JsonRpcResponse

/-- Lookup in the `responses_map` dict, keyed by response id. -/
def mapGet (m : List (RpcId × MapValue)) (i : RpcId) : Option MapValue :=
  match m with
  | [] => none
  | (j, v) :: rest => if j = i then some v else mapGet rest i

/-- Update of the `responses_map` dict: replace the entry for `i` in place,
or append a fresh one. -/
def mapSet (m : List (RpcId × MapValue)) (i : RpcId) (v : MapValue) :
    List (RpcId × MapValue) :=
  match m with
  | [] => [(i, v)]
  | (j, w) :: rest => if j = i then (i, v) :: rest else (j, w) :: mapSet rest i v

/-- First step of the response loop of `_collect_batch_result`:
`value = response.result if response.error is None else response.error`. -/
def responseValue (response : JsonRpcResponse) : ResponseValue :=
  match response.error with
  | none => ResponseValue.result response.result
  | some e => ResponseValue.error e

/-- One iteration of the response loop of `_collect_batch_result`
(base.py lines 146-165).  The state is the pair
(`unlinked_results` contents, `responses_map`). -/
def processResponse (st : List ResponseValue × List (RpcId × MapValue))
    (response : JsonRpcResponse) :
    List ResponseValue × List (RpcId × MapValue) :=
  let value := responseValue response
  match response.id with
  | none => (st.1 ++ [value], st.2)
  | some i =>
    match mapGet st.2 i with
    | some (MapValue.duplicated vs) =>
        (st.1, mapSet st.2 i (MapValue.duplicated (vs ++ [value])))
    | some (MapValue.single w) =>
        (st.1, mapSet st.2 i (MapValue.duplicated [w, value]))
    | none => (st.1, mapSet st.2 i (MapValue.single value))

/-- The full response loop: fold `processResponse` over the batch response,
starting from an empty `UnlinkedResults` and an empty `responses_map`. -/
def buildResponseState (batch_response : JsonRpcBatchResponse) :
    List ResponseValue × List (RpcId × MapValue) :=
  batch_response.responses.foldl processResponse ([], [])

/-- Python `unlinked_results or None`.  Modelled from the spec: the
truthiness of `protocol.UnlinkedResults` (not under `src/`) follows §4.5
step 3, "`unlinked` (non-empty) or absent": an empty collection is falsy. -/
def unlinkedOrNone (unlinked : List ResponseValue) : SlotValue :=
  if unlinked.isEmpty then SlotValue.noneValue else SlotValue.unlinked unlinked

/-- Embeds a `responses_map` entry into a result slot. -/
def mapValueToSlot (v : MapValue) : SlotValue :=
  match v with
  | MapValue.single w => SlotValue.single w
  | MapValue.duplicated vs => SlotValue.duplicated vs

/-- One iteration of the request loop of `_collect_batch_result`
(base.py lines 169-173): a notification slot gets `unlinked_results or None`;
otherwise `responses_map.get(request.id, unlinked_results or None)`. -/
def resolveRequest (unlinked : List ResponseValue)
    (m : List (RpcId × MapValue)) (request : JsonRpcRequest) : SlotValue :=
  if request.is_notification then unlinkedOrNone unlinked
  else
    match request.id with
    | some i =>
      match mapGet m i with
      | some v => mapValueToSlot v
      | none => unlinkedOrNone unlinked
    | none => unlinkedOrNone unlinked

/-- `BaseJsonRpcClient._collect_batch_result` (base.py lines 140-175): build
the unlinked collection and the id map from the batch response, then resolve
each request of the batch request in order, appending one slot per request. -/
def _collect_batch_result (batch_request : JsonRpcBatchRequest)
    (batch_response : JsonRpcBatchResponse) : List SlotValue :=
  let st := buildResponseState batch_response
  batch_request.requests.foldl
    (fun result request => result ++ [resolveRequest st.1 st.2 request]) []

/-- `_collect_batch_result` rendered exception-transparently in the `Except`
monad: every statement of the Python method is total (dict lookups, dict
stores, list appends), so each loop iteration is wrapped in `Except.ok` and
no path produces an error. -/
def _collect_batch_resultE (batch_request : JsonRpcBatchRequest)
    (batch_response : JsonRpcBatchResponse) :
    Except RpcError (List SlotValue) := do
  let st ← batch_response.responses.foldlM
    (fun st response => Except.ok (processResponse st response))
    (([], []) : List ResponseValue × List (RpcId × MapValue))
  batch_request.requests.foldlM
    (fun result request => Except.ok (result ++ [resolveRequest st.1 st.2 request]))
    ([] : List SlotValue)

/-- The pure tail of `BaseJsonRpcClient.batch` (base.py lines 72-78), after
the batch response has come back: correlate when `save_order` is true, else
return per-response result-or-error values in wire order. -/
def batch_result (save_order : Bool) (batch_request : JsonRpcBatchRequest)
    (batch_response : JsonRpcBatchResponse) : List SlotValue :=
  if save_order then _collect_batch_result batch_request batch_response
  else batch_response.responses.map
    (fun response => SlotValue.single (responseValue response))

/-- Modelled from the spec: `utils.validate_jsonrpc` is not under `src/`.
§4.2 `validate_protocol_version(v)`: fails with `InvalidRequest` unless `v`
equals the single supported version string ("2.0", §6 wire format). -/
def validate_jsonrpc (v : String) : Except RpcError Unit :=
  if v = "2.0" then Except.ok ()
  else Except.error (RpcError.invalidRequest "Unsupported protocol version.")

/-- Modelled from the spec: `utils.convert_params_to_args_and_kwargs` is not
under `src/`.  §4.2 `normalize(params)`: a sequence becomes positional args
with an empty keyword map, a mapping becomes keyword args with an empty
positional sequence, anything else fails with `InvalidParams`. -/
def convert_params_to_args_and_kwargs (params : Json) :
    Except RpcError (List Json × List (String × Json)) :=
  match params with
  | Json.arr xs => Except.ok (xs, [])
  | Json.obj fields => Except.ok ([], fields)
  | _ => Except.error (RpcError.invalidParams "Params must be a sequence or a mapping.")

/-- Modelled from the spec: `utils.parse_args_and_kwargs` is not under
`src/`.  §4.2 `normalize(args, kwargs)`: only args given — canonical params
is the args sequence; only kwargs given — canonical params is the kwargs
mapping; both empty — params is absent (`NOTHING`); both non-empty —
`InvalidParams`.  Returns the triple assigned to
`(self.params, self.args, self.kwargs)`. -/
def parse_args_and_kwargs (args : Option (List Json))
    (kwargs : Option (List (String × Json))) :
    Except RpcError (ParamsField × List Json × List (String × Json)) :=
  let argsL := args.getD []
  let kwargsL := kwargs.getD []
  if argsL.isEmpty && kwargsL.isEmpty then
    Except.ok (ParamsField.nothing, [], [])
  else if kwargsL.isEmpty then
    Except.ok (ParamsField.value (Json.arr argsL), argsL, [])
  else if argsL.isEmpty then
    Except.ok (ParamsField.value (Json.obj kwargsL), [], kwargsL)
  else
    Except.error (RpcError.invalidParams "Need use args or kwargs, not both.")

/-- The `JsonRpcRequest` dataclass constructor together with its
`__post_init__` (request.py lines 26-43): validate the protocol version,
then — `params` absent: derive `params`, `args`, `kwargs` via
`set_args_and_kwargs`; `params` present with `args` and `kwargs` both `None`:
derive `args`, `kwargs` via `set_params`; otherwise raise `InvalidParams`. -/
def JsonRpcRequest.make (method_name : String) (id : Option RpcId)
    (jsonrpc : String) (params : ParamsField) (args : Option (List Json))
    (kwargs : Option (List (String × Json))) :
    Except RpcError JsonRpcRequest :=
  match validate_jsonrpc jsonrpc with
  | Except.error e => Except.error e
  | Except.ok _ =>
    match params with
    | ParamsField.nothing =>
      match parse_args_and_kwargs args kwargs with
      | Except.error e => Except.error e
      | Except.ok (p, a, k) =>
          Except.ok { method_name := method_name, id := id, jsonrpc := jsonrpc,
                      params := p, args := some a, kwargs := some k }
    | ParamsField.value v =>
      match args, kwargs with
      | none, none =>
        match convert_params_to_args_and_kwargs v with
        | Except.error e => Except.error e
        | Except.ok (a, k) =>
            Except.ok { method_name := method_name, id := id, jsonrpc := jsonrpc,
                        params := ParamsField.value v, args := some a, kwargs := some k }
      | _, _ => Except.error (RpcError.invalidParams "Need use params or args with kwargs.")

/-- The `JsonRpcBatchRequest` dataclass constructor (request.py lines 86-88).
The class defines no `__post_init__`, so no validation runs;
`Except`-valued only so that success/failure of construction is statable. -/
def JsonRpcBatchRequest.construct (requests : List JsonRpcRequest) :
    Except RpcError JsonRpcBatchRequest :=
  Except.ok { requests := requests }

/-- Association-list lookup in a parsed JSON object. -/
def objLookup (fields : List (String × Json)) (k : String) : Option Json :=
  match fields with
  | [] => none
  | (k2, v) :: rest => if k2 = k then some v else objLookup rest k

/-- Modelled from the spec: the error-code table of `errors.py` is not under
`src/`.  §3/§7: a fixed table of well-known JSON-RPC codes maps to the
specific kinds; unrecognized codes map to the generic application-error kind
carrying the raw code. -/
def errorFromCode (code : Int) (message : String) : RpcError :=
  if code = -32700 then RpcError.parseError message
  else if code = -32600 then RpcError.invalidRequest message
  else if code = -32601 then RpcError.methodNotFound message
  else if code = -32602 then RpcError.invalidParams message
  else if code = -32603 then RpcError.internalError message
  else RpcError.applicationError code message

/-- Reads a wire id value into the typed id, `null`/non-id shapes giving
`none`. -/
def jsonToRpcId (j : Json) : Option RpcId :=
  match j with
  | Json.num n => some (RpcId.int n)
  | Json.str s => some (RpcId.str s)
  | _ => none

/-- Modelled from the spec: `JsonRpcResponse.from_dict` of
`protocol/response.py` is not under `src/`.  §4.4: read `id` (default null if
absent) and exactly one of `result`/`error`; an error object is resolved
against the error table with the generic fallback. -/
def JsonRpcResponse.from_dict (data : Json) : JsonRpcResponse :=
  match data with
  | Json.obj fields =>
    let respId := (objLookup fields "id").bind jsonToRpcId
    match objLookup fields "error" with
    | some errObj =>
      let code := match errObj with
        | Json.obj efs =>
          match objLookup efs "code" with
          | some (Json.num n) => n
          | _ => 0
        | _ => 0
      let message := match errObj with
        | Json.obj efs =>
          match objLookup efs "message" with
          | some (Json.str s) => s
          | _ => ""
        | _ => ""
      { id := respId, result := Json.null, error := some (errorFromCode code message) }
    | none =>
      { id := respId, result := (objLookup fields "result").getD Json.null, error := none }
  | _ => { id := none, result := Json.null,
           error := some (RpcError.parseError "A response must be of the dict type.") }

/-- Modelled from the spec: `JsonRpcBatchResponse.from_list` of
`protocol/response.py` is not under `src/`.  §4.4: each element is parsed
independently. -/
def JsonRpcBatchResponse.from_list (data : List Json) : JsonRpcBatchResponse :=
  { responses := data.map JsonRpcResponse.from_dict }

/-- The pure content of `BaseJsonRpcClient.direct_batch` (base.py lines
111-131), with the transport's decoded reply passed in as `json_response`:
an empty request list raises `InvalidRequest` before anything is sent; a
notification batch yields no response; an empty reply for a non-notification
batch raises `ParseError`; otherwise the reply is parsed as a batch
response. -/
def direct_batch (batch_request : JsonRpcBatchRequest)
    (json_response : List Json) :
    Except RpcError (Option JsonRpcBatchResponse) :=
  if batch_request.requests.isEmpty then
    Except.error (RpcError.invalidRequest "You can not send an empty batch request.")
  else if batch_request.is_notification then
    Except.ok none
  else if json_response.isEmpty then
    Except.error (RpcError.parseError "Server returned an empty batch response.")
  else
    Except.ok (some (JsonRpcBatchResponse.from_list json_response))

/-- `typedefs.MethodDescriptionType`: a bare method-name string, a sequence
(modelled as a list of JSON values), or an already-built `JsonRpcRequest`. -/
inductive MethodDescription where
  | str (s : String)
  | seq (xs : List Json)
  | request (r : JsonRpcRequest)

/-- `BaseJsonRpcClient._parse_method_description` (base.py lines 177-212),
with the impure `utils.get_random_id()` value passed in as `rid`.  A
pre-built request is returned as-is; a string is a bare method name; a
sequence dispatches on its length — 1: method, 2: method and params,
3: method, args and kwargs — and any other length raises `InvalidParams`.
The typed model additionally requires the method element to be a JSON
string, the length-3 args element a sequence and its kwargs element a
mapping, as the running code would in practice. -/
def _parse_method_description (rid : RpcId)
    (method_description : MethodDescription) (is_notification : Bool) :
    Except RpcError JsonRpcRequest :=
  match method_description with
  | MethodDescription.request r => Except.ok r
  | MethodDescription.str s =>
      JsonRpcRequest.make s (if is_notification then none else some rid)
        "2.0" ParamsField.nothing none none
  | MethodDescription.seq xs =>
    match xs with
    | [x1] =>
      match x1 with
      | Json.str m =>
          JsonRpcRequest.make m (if is_notification then none else some rid)
            "2.0" ParamsField.nothing none none
      | _ => Except.error (RpcError.invalidParams "The method name must be a string.")
    | [x1, x2] =>
      match x1 with
      | Json.str m =>
          JsonRpcRequest.make m (if is_notification then none else some rid)
            "2.0" (ParamsField.value x2) none none
      | _ => Except.error (RpcError.invalidParams "The method name must be a string.")
    | [x1, x2, x3] =>
      match x1, x2, x3 with
      | Json.str m, Json.arr a, Json.obj k =>
          JsonRpcRequest.make m (if is_notification then none else some rid)
            "2.0" ParamsField.nothing (some a) (some k)
      | _, _, _ =>
          Except.error (RpcError.invalidParams
            "The method name must be a string, args a sequence and kwargs a mapping.")
    | _ =>
        Except.error (RpcError.invalidParams
          "Use string or list (length less than or equal to 3).")

/-- The request-construction part of `BaseJsonRpcClient.batch_notify`
(base.py lines 80-89) for a list of descriptions: each description is parsed
with `is_notification=True`; the ids `utils.get_random_id()` would produce
are supplied by `gen`, indexed by position (they are unused on every
non-prebuilt path). -/
def batch_notify_build (gen : Nat → RpcId)
    (method_descriptions : List MethodDescription) :
    Except RpcError JsonRpcBatchRequest :=
  match (method_descriptions.enum.mapM
      (fun p => _parse_method_description (gen p.1) p.2 true)) with
  | Except.error e => Except.error e
  | Except.ok requests => Except.ok { requests := requests }

/-- Concrete fixture: the request `A(id=1)` used by the spec's correlation
examples, exactly as `JsonRpcRequest.make "a" (some (RpcId.int 1)) "2.0"
ParamsField.nothing none none` produces it. -/
def reqA1 : JsonRpcRequest :=
  { method_name := "a", id := some (RpcId.int 1), jsonrpc := "2.0",
    params := ParamsField.nothing, args := some [], kwargs := some [] }

/-- Concrete fixture: the notification `B` (no id) of the spec's correlation
example. -/
def reqBnotif : JsonRpcRequest :=
  { method_name := "b", id := none, jsonrpc := "2.0",
    params := ParamsField.nothing, args := some [], kwargs := some [] }

/-- Concrete fixture: the request `C(id=2)` of the spec's correlation
example. -/
def reqC2 : JsonRpcRequest :=
  { method_name := "c", id := some (RpcId.int 2), jsonrpc := "2.0",
    params := ParamsField.nothing, args := some [], kwargs := some [] }

/- ------------------------------------------------------------------ -/
/- Helper lemmas shared by the claim theorems.                         -/
/- ------------------------------------------------------------------ -/

/-- Folding pure (`Except.ok`-wrapped) steps in the `Except` monad is the
pure fold. -/
theorem foldlM_pure_ok {α β : Type} (f : β → α → β) (l : List α) (b : β) :
    (l.foldlM (fun st a => Except.ok (f st a)) b : Except RpcError β) =
      Except.ok (l.foldl f b) := by
  induction l generalizing b with
  | nil => rfl
  | cons x xs ih => simpa [List.foldlM, List.foldl] using ih (f b x)

/-- The append-one-slot-per-element fold is a `map`. -/
theorem foldl_push_eq_append_map {α β : Type} (g : α → β) (l : List α)
    (acc : List β) :
    l.foldl (fun result a => result ++ [g a]) acc = acc ++ l.map g := by
  induction l generalizing acc with
  | nil => simp
  | cons x xs ih => simp [List.foldl, ih]

/-- `_collect_batch_result` is the request list mapped through
`resolveRequest` over the state built from the responses. -/
theorem collect_eq_map (batch_request : JsonRpcBatchRequest)
    (batch_response : JsonRpcBatchResponse) :
    _collect_batch_result batch_request batch_response =
      batch_request.requests.map
        (resolveRequest (buildResponseState batch_response).1
          (buildResponseState batch_response).2) := by
  simp only [_collect_batch_result]
  rw [foldl_push_eq_append_map]
  simp

/-- A successfully constructed request carries exactly the id it was given. -/
theorem make_id_eq (m : String) (id : Option RpcId) (j : String)
    (p : ParamsField) (a : Option (List Json))
    (k : Option (List (String × Json))) (r : JsonRpcRequest)
    (h : JsonRpcRequest.make m id j p a k = Except.ok r) : r.id = id := by
  unfold JsonRpcRequest.make at h
  split at h
  · exact Except.noConfusion h
  · split at h
    · split at h
      · exact Except.noConfusion h
      · cases h; rfl
    · split at h
      · split at h
        · exact Except.noConfusion h
        · cases h; rfl
      · exact Except.noConfusion h

/-- A request successfully built by `_parse_method_description` from a
non-prebuilt description carries the computed `request_id`. -/
theorem parse_ok_id (rid : RpcId) (isn : Bool) (d : MethodDescription)
    (r : JsonRpcRequest) (hd : ∀ r0, d ≠ MethodDescription.request r0)
    (h : _parse_method_description rid d isn = Except.ok r) :
    r.id = if isn then none else some rid := by
  cases d with
  | request r0 => exact absurd rfl (hd r0)
  | str s =>
    replace h : JsonRpcRequest.make s (if isn then none else some rid) "2.0"
        ParamsField.nothing none none = Except.ok r := h
    exact make_id_eq _ _ _ _ _ _ _ h
  | seq xs =>
    rcases xs with _ | ⟨a, _ | ⟨b, _ | ⟨c, _ | ⟨d2, t⟩⟩⟩⟩
    · exact Except.noConfusion h
    · cases a with
      | str s =>
        replace h : JsonRpcRequest.make s (if isn then none else some rid) "2.0"
            ParamsField.nothing none none = Except.ok r := h
        exact make_id_eq _ _ _ _ _ _ _ h
      | null => exact Except.noConfusion h
      | bool b2 => exact Except.noConfusion h
      | num n2 => exact Except.noConfusion h
      | arr a2 => exact Except.noConfusion h
      | obj o2 => exact Except.noConfusion h
    · cases a with
      | str s =>
        replace h : JsonRpcRequest.make s (if isn then none else some rid) "2.0"
            (ParamsField.value b) none none = Except.ok r := h
        exact make_id_eq _ _ _ _ _ _ _ h
      | null => exact Except.noConfusion h
      | bool b2 => exact Except.noConfusion h
      | num n2 => exact Except.noConfusion h
      | arr a2 => exact Except.noConfusion h
      | obj o2 => exact Except.noConfusion h
    · cases a with
      | str s =>
        cases b with
        | arr a2 =>
          cases c with
          | obj o2 =>
            replace h : JsonRpcRequest.make s (if isn then none else some rid) "2.0"
                ParamsField.nothing (some a2) (some o2) = Except.ok r := h
            exact make_id_eq _ _ _ _ _ _ _ h
          | null => exact Except.noConfusion h
          | bool b3 => exact Except.noConfusion h
          | num n3 => exact Except.noConfusion h
          | str s3 => exact Except.noConfusion h
          | arr a3 => exact Except.noConfusion h
        | null => exact Except.noConfusion h
        | bool b3 => exact Except.noConfusion h
        | num n3 => exact Except.noConfusion h
        | str s3 => exact Except.noConfusion h
        | obj o3 => exact Except.noConfusion h
      | null => exact Except.noConfusion h
      | bool b2 => exact Except.noConfusion h
      | num n2 => exact Except.noConfusion h
      | arr a2 => exact Except.noConfusion h
      | obj o2 => exact Except.noConfusion h
    · exact Except.noConfusion h

/- ------------------------------------------------------------------ -/
/- Claim theorems.                                                     -/
/- ------------------------------------------------------------------ -/

/-- C1: for every batch request and batch response, the list produced by
`_collect_batch_result` has exactly one entry per original request, and its
i-th entry is the value `resolveRequest` yields for the i-th request over the
state built from the responses — request order is preserved regardless of
response order. -/
theorem collect_batch_result_len_and_order
    (batch_request : JsonRpcBatchRequest)
    (batch_response : JsonRpcBatchResponse) :
    (_collect_batch_result batch_request batch_response).length =
      batch_request.requests.length ∧
    ∀ i : Nat,
      (_collect_batch_result batch_request batch_response)[i]? =
        (batch_request.requests[i]?).map
          (resolveRequest (buildResponseState batch_response).1
            (buildResponseState batch_response).2) := by
  rw [collect_eq_map]
  constructor
  · exact List.length_map _ _
  · intro i
    exact List.getElem?_map _ _ _

/-- C2: for the batch request `[A(id=1), B(notification), C(id=2)]` and the
batch response `[{id:2, result:"c"}, {id:1, result:"a"}]`, the
`save_order=True` path of `batch` returns `["a", None, "c"]`: values follow
request order, and the notification slot is `None`. -/
theorem batch_save_order_correlates_by_request_order :
    batch_result true
      { requests := [reqA1, reqBnotif, reqC2] }
      { responses :=
          [ { id := some (RpcId.int 2), result := Json.str "c", error := none },
            { id := some (RpcId.int 1), result := Json.str "a", error := none } ] } =
      [ SlotValue.single (ResponseValue.result (Json.str "a")),
        SlotValue.noneValue,
        SlotValue.single (ResponseValue.result (Json.str "c")) ] := rfl

/-- C3: for the single request `A(id=1)` and the responses
`[{id:1, result:"x"}, {id:1, result:"y"}]`, the correlated value for `A` is a
`DuplicatedResults` collection holding both `"x"` and `"y"` in response
order; neither value is dropped or overwritten. -/
theorem duplicate_ids_collect_both_values :
    _collect_batch_result
      { requests := [reqA1] }
      { responses :=
          [ { id := some (RpcId.int 1), result := Json.str "x", error := none },
            { id := some (RpcId.int 1), result := Json.str "y", error := none } ] } =
      [ SlotValue.duplicated
          [ResponseValue.result (Json.str "x"),
           ResponseValue.result (Json.str "y")] ] := rfl

/-- C4 counterexample: constructing the empty `JsonRpcBatchRequest` succeeds
— the dataclass has no `__post_init__`, so no construction-time validation
exists, refuting "it is impossible to hold a validly constructed empty
batch". -/
theorem empty_batch_constructs_ok :
    JsonRpcBatchRequest.construct [] = Except.ok { requests := [] } := rfl

/-- C4 amended: an empty batch request is a send-time error, not a
construction-time one — `direct_batch` raises `InvalidRequest` on an empty
request list before any transport exchange, whatever the transport would
have replied. -/
theorem empty_batch_raises_on_send (json_response : List Json) :
    direct_batch { requests := [] } json_response =
      Except.error
        (RpcError.invalidRequest "You can not send an empty batch request.") := rfl

/-- C5 counterexample: `batch_notify` does not force an already-built
`JsonRpcRequest` description into notification form — the prebuilt request
`A(id=1)` is placed in the batch unchanged and is not a notification. -/
theorem batch_notify_prebuilt_keeps_id :
    batch_notify_build (fun _ => RpcId.int 0) [MethodDescription.request reqA1] =
      Except.ok { requests := [reqA1] } ∧
    reqA1.is_notification = false := ⟨rfl, rfl⟩

/-- C5 amended: every request `batch_notify` builds from a string or
sequence description (its `is_notification=True` parse) is a notification;
only descriptions that are already `JsonRpcRequest` objects are passed
through unchanged, keeping their ids. -/
theorem parse_description_notification_forced (rid : RpcId)
    (d : MethodDescription) (r : JsonRpcRequest)
    (hd : ∀ r0, d ≠ MethodDescription.request r0)
    (h : _parse_method_description rid d true = Except.ok r) :
    r.is_notification = true := by
  have hid := parse_ok_id rid true d r hd h
  simp only [if_pos rfl] at hid
  simp [JsonRpcRequest.is_notification, hid]

/-- C5 witness: the string description `"ping"` parses under
`is_notification=True` into a request with no id, which is a
notification. -/
theorem parse_description_notification_forced_witness :
    (_parse_method_description (RpcId.int 0) (MethodDescription.str "ping") true =
      Except.ok { method_name := "ping", id := none, jsonrpc := "2.0",
                  params := ParamsField.nothing, args := some [], kwargs := some [] }) ∧
    JsonRpcRequest.is_notification
      { method_name := "ping", id := none, jsonrpc := "2.0",
        params := ParamsField.nothing, args := some [], kwargs := some [] } = true :=
  ⟨rfl,
   parse_description_notification_forced (RpcId.int 0)
     (MethodDescription.str "ping") _ (fun _ h => MethodDescription.noConfusion h) rfl⟩

/-- C6: the correlation computation terminates normally and never raises:
the exception-transparent `Except` rendering of `_collect_batch_result`
returns `Except.ok` of the pure result for every batch request and batch
response — including unmatched ids, null ids, duplicate ids, and fewer or
more responses than requests. -/
theorem collect_batch_result_never_raises
    (batch_request : JsonRpcBatchRequest)
    (batch_response : JsonRpcBatchResponse) :
    _collect_batch_resultE batch_request batch_response =
      Except.ok (_collect_batch_result batch_request batch_response) := by
  have h1 : _collect_batch_resultE batch_request batch_response =
      batch_request.requests.foldlM
        (fun result request =>
          Except.ok (result ++
            [resolveRequest (buildResponseState batch_response).1
              (buildResponseState batch_response).2 request]))
        ([] : List SlotValue) := by
    unfold _collect_batch_resultE
    rw [foldlM_pure_ok]
    rfl
  rw [h1, foldlM_pure_ok]
  rfl

/-- C7: when a non-notification request's id has an entry in the
`responses_map` built from the batch response, its slot is that entry's
value — the unlinked fallback is not consulted, even when null-id responses
are present. -/
theorem exact_id_match_beats_unlinked
    (batch_request : JsonRpcBatchRequest)
    (batch_response : JsonRpcBatchResponse) (j : Nat)
    (request : JsonRpcRequest)
    (hj : batch_request.requests[j]? = some request)
    (i : RpcId) (hid : request.id = some i) (mv : MapValue)
    (hmv : mapGet (buildResponseState batch_response).2 i = some mv) :
    (_collect_batch_result batch_request batch_response)[j]? =
      some (mapValueToSlot mv) := by
  rw [collect_eq_map, List.getElem?_map, hj]
  simp [resolveRequest, JsonRpcRequest.is_notification, hid, hmv]

/-- C7 witness: with the single request `A(id=1)` and the responses
`[{id:null, result:"orphan"}, {id:1, result:"a"}]`, `A` resolves to `"a"`,
not to the unlinked orphan. -/
theorem exact_id_match_beats_unlinked_witness :
    (_collect_batch_result
      { requests := [reqA1] }
      { responses :=
          [ { id := none, result := Json.str "orphan", error := none },
            { id := some (RpcId.int 1), result := Json.str "a", error := none } ] })[0]? =
      some (SlotValue.single (ResponseValue.result (Json.str "a"))) :=
  exact_id_match_beats_unlinked
    { requests := [reqA1] }
    { responses :=
        [ { id := none, result := Json.str "orphan", error := none },
          { id := some (RpcId.int 1), result := Json.str "a", error := none } ] }
    0 reqA1 rfl (RpcId.int 1) rfl
    (MapValue.single (ResponseValue.result (Json.str "a"))) rfl

/-- C8: `JsonRpcRequest` construction rejects a supplied `params` together
with supplied `args`/`kwargs` with `InvalidParams`; with only `params`
supplied, `args` and `kwargs` are derived from it by
`convert_params_to_args_and_kwargs`; with only `args`/`kwargs` supplied,
`params` is derived from them by `parse_args_and_kwargs`.  (The code rejects
`params` alongside args/kwargs that are merely present, even empty — a
non-empty supplied `args` or `kwargs` is in particular present.) -/
theorem request_params_args_kwargs_exclusive (m : String) (id : Option RpcId)
    (v : Json) (args : Option (List Json))
    (kwargs : Option (List (String × Json))) :
    (args ≠ none ∨ kwargs ≠ none →
      JsonRpcRequest.make m id "2.0" (ParamsField.value v) args kwargs =
        Except.error (RpcError.invalidParams "Need use params or args with kwargs.")) ∧
    (∀ a k, convert_params_to_args_and_kwargs v = Except.ok (a, k) →
      JsonRpcRequest.make m id "2.0" (ParamsField.value v) none none =
        Except.ok { method_name := m, id := id, jsonrpc := "2.0",
                    params := ParamsField.value v, args := some a, kwargs := some k }) ∧
    (∀ p a k, parse_args_and_kwargs args kwargs = Except.ok (p, a, k) →
      JsonRpcRequest.make m id "2.0" ParamsField.nothing args kwargs =
        Except.ok { method_name := m, id := id, jsonrpc := "2.0",
                    params := p, args := some a, kwargs := some k }) := by
  refine ⟨?_, ?_, ?_⟩
  · intro hne
    cases args with
    | some aL => rfl
    | none =>
      cases kwargs with
      | some kL => rfl
      | none =>
        rcases hne with h | h <;> exact absurd rfl h
  · intro a k hck
    have hred : JsonRpcRequest.make m id "2.0" (ParamsField.value v) none none =
        match convert_params_to_args_and_kwargs v with
        | Except.error e => Except.error e
        | Except.ok (a2, k2) =>
            Except.ok { method_name := m, id := id, jsonrpc := "2.0",
                        params := ParamsField.value v, args := some a2,
                        kwargs := some k2 } := rfl
    rw [hred, hck]
  · intro p a k hpk
    have hred : JsonRpcRequest.make m id "2.0" ParamsField.nothing args kwargs =
        match parse_args_and_kwargs args kwargs with
        | Except.error e => Except.error e
        | Except.ok (p2, a2, k2) =>
            Except.ok { method_name := m, id := id, jsonrpc := "2.0",
                        params := p2, args := some a2,
                        kwargs := some k2 } := rfl
    rw [hred, hpk]

/-- C8 witness: `params=[1]` with supplied `args=[2]` is rejected with
`InvalidParams`; `params=[1]` alone derives `args=[1], kwargs={}`;
`args=[2]` alone derives `params=[2]`. -/
theorem request_params_args_kwargs_exclusive_witness :
    (JsonRpcRequest.make "m" none "2.0" (ParamsField.value (Json.arr [Json.num 1]))
        (some [Json.num 2]) none =
      Except.error (RpcError.invalidParams "Need use params or args with kwargs.")) ∧
    (JsonRpcRequest.make "m" none "2.0" (ParamsField.value (Json.arr [Json.num 1]))
        none none =
      Except.ok { method_name := "m", id := none, jsonrpc := "2.0",
                  params := ParamsField.value (Json.arr [Json.num 1]),
                  args := some [Json.num 1], kwargs := some [] }) ∧
    (JsonRpcRequest.make "m" none "2.0" ParamsField.nothing
        (some [Json.num 2]) none =
      Except.ok { method_name := "m", id := none, jsonrpc := "2.0",
                  params := ParamsField.value (Json.arr [Json.num 2]),
                  args := some [Json.num 2], kwargs := some [] }) :=
  ⟨(request_params_args_kwargs_exclusive "m" none (Json.arr [Json.num 1])
      (some [Json.num 2]) none).1 (Or.inl (fun h => Option.noConfusion h)),
   (request_params_args_kwargs_exclusive "m" none (Json.arr [Json.num 1])
      none none).2.1 [Json.num 1] [] rfl,
   (request_params_args_kwargs_exclusive "m" none Json.null
      (some [Json.num 2]) none).2.2
     (ParamsField.value (Json.arr [Json.num 2])) [Json.num 2] [] rfl⟩

/-- C9: a sequence-shaped batch shorthand description whose length is
neither 1, 2 nor 3 always fails with `InvalidParams` (bare strings and
prebuilt requests, the only other shorthand shapes, never reach this
check). -/
theorem method_description_bad_length_invalid_params (rid : RpcId)
    (isn : Bool) (xs : List Json) (h1 : xs.length ≠ 1) (h2 : xs.length ≠ 2)
    (h3 : xs.length ≠ 3) :
    _parse_method_description rid (MethodDescription.seq xs) isn =
      Except.error (RpcError.invalidParams
        "Use string or list (length less than or equal to 3).") := by
  match xs with
  | [] => rfl
  | [a] => exact absurd rfl h1
  | [a, b] => exact absurd rfl h2
  | [a, b, c] => exact absurd rfl h3
  | a :: b :: c :: d :: t => rfl

/-- C9 witness: a four-element sequence description fails with
`InvalidParams`. -/
theorem method_description_bad_length_invalid_params_witness :
    _parse_method_description (RpcId.int 0)
      (MethodDescription.seq [Json.num 1, Json.num 2, Json.num 3, Json.num 4])
      false =
      Except.error (RpcError.invalidParams
        "Use string or list (length less than or equal to 3).") :=
  method_description_bad_length_invalid_params (RpcId.int 0) false
    [Json.num 1, Json.num 2, Json.num 3, Json.num 4]
    (by decide) (by decide) (by decide)

/-- C10: an already-constructed `JsonRpcRequest` passed as a description is
returned by `_parse_method_description` itself, unchanged — so every field
(id, method_name, params, args, kwargs) is preserved and the
`is_notification` flag has no effect on it. -/
theorem parse_prebuilt_description_identity (rid : RpcId)
    (r : JsonRpcRequest) (isn : Bool) :
    _parse_method_description rid (MethodDescription.request r) isn =
      Except.ok r := rfl
